import Mathlib

/-!
Shallow embedding of the image-compositing client path of `ImageClient.cpp`
(`mozilla::layers`): the single-buffer publisher `ImageClientSingle`
(`UpdateImage`, `OnDetach`) and the bridge variant `ImageClientBridge`
(`UpdateImage`), together with the constructor initialisation of
`ImageClient`.

Modelling choices:
* A `TextureClient` is identified by a natural number (its identity); the
  behaviour of external collaborators — `CreateTextureClientForImage`
  (allocation), `GetAllocator()->IPCOpen()` and
  `CompositableClient::AddTextureClient` — is supplied by an `Env` record of
  functions, so every outcome the C++ code branches on is a parameter.
* Forwarder instructions (`UseTextures`, `RemoveTextureFromCompositable`,
  `AttachAsyncCompositable`) are recorded as an ordered event list.
* An `UpdateImage` call returns the boolean result, the post-call object
  state, the forwarder events issued during the call, and the list of image
  serials for which `CreateTextureClientForImage` was invoked (the
  allocator-call log).
* `AutoTArray`/`nsTArray` become `List`; the C++ reverse-order
  search-and-remove loops become `List.filter`, which removes exactly the
  same elements and preserves the relative order of the rest.  When the
  image has no own texture, the C++ loop overwrites `texture` at every
  matching index going from the back, so its final value is the *first*
  matching buffer in array order — `List.head?` of the matching sublist.
-/

/-- One image of the container snapshot, as consumed by `UpdateImage`:
the fields of `ImageContainer::OwningImage` together with the results of
the `Image` methods the code calls (`IsValid`, `GetSerial`,
`GetTextureClient(GetForwarder())`, `GetPictureRect`). -/
structure OwningImage where
  serial : Nat
  valid : Bool
  /-- Result of `image->GetTextureClient(GetForwarder())`: the texture this image
  already owns for this forwarder, if any. -/
  ownTexture : Option Nat
  timeStamp : Nat
  pictureRect : Nat
  frameID : Nat
  producerID : Nat
deriving DecidableEq

/-- The snapshot handed out by `ImageContainer::GetCurrentImages`. -/
structure ImageContainer where
  images : List OwningImage
  generation : Nat
deriving DecidableEq

/-- A record of `ImageClientSingle`'s `mBuffers` array (`struct Buffer`):
frame serial and bound texture client. -/
structure Buffer where
  mImageSerial : Nat
  mTextureClient : Nat
deriving DecidableEq

/-- The record `CompositableForwarder::TimedTextureClient`, built per forwarded frame. -/
structure TimedTextureClient where
  mTextureClient : Nat
  mTimeStamp : Nat
  mPictureRect : Nat
  mFrameID : Nat
  mProducerID : Nat
deriving DecidableEq

/-- A forwarder instruction observed by the compositor side. -/
inductive FwdEvent where
  | useTextures (textures : List TimedTextureClient)
  | removeTexture (texture : Nat)
  | attachAsyncCompositable (handle : Nat)
deriving DecidableEq

/-- Outcomes of the external collaborators `UpdateImage` consults:
allocation (`CreateTextureClientForImage`), the channel-open probe
(`texture->GetAllocator()->IPCOpen()`), and
`CompositableClient::AddTextureClient`. -/
structure Env where
  createTexture : OwningImage → Option Nat
  ipcOpen : Nat → Bool
  addTexture : Nat → Bool

/-- The state `UpdateImage` reads and writes on the client object. -/
structure ClientState where
  mBuffers : List Buffer
  mLastUpdateGenerationCounter : Nat
deriving DecidableEq

/-- The constructor `ImageClient::ImageClient` initialises `mLastUpdateGenerationCounter`
to 0; `mBuffers` starts empty. -/
def ClientState.init : ClientState :=
  { mBuffers := [], mLastUpdateGenerationCounter := 0 }

/-- Result of one `ImageClientSingle::UpdateImage` call: returned boolean,
post-call state, forwarder events in issue order, and the serials for which
`CreateTextureClientForImage` was called. -/
structure UpdateResult where
  ok : Bool
  state : ClientState
  events : List FwdEvent
  allocCalls : List Nat
deriving DecidableEq

/-- The texture obtained without allocating: the image's own texture if it
has one, otherwise the texture of the first `mBuffers` entry whose
`mImageSerial` matches (the C++ back-to-front loop's final assignment). -/
def recycleTexture (img : OwningImage) (oldBufs : List Buffer) : Option Nat :=
  match img.ownTexture with
  | some t => some t
  | none => ((oldBufs.filter fun b => b.mImageSerial == img.serial).head?).map
      fun b => b.mTextureClient

/-- The `TimedTextureClient` the code appends for image `img` bound to
texture `t`. -/
def mkTimed (img : OwningImage) (t : Nat) : TimedTextureClient :=
  { mTextureClient := t, mTimeStamp := img.timeStamp,
    mPictureRect := img.pictureRect, mFrameID := img.frameID,
    mProducerID := img.producerID }

/-- Outcome of the per-image loop of `UpdateImage`: either an early
`return false` (carrying the mutated `mBuffers` and the allocator log), or
loop completion with the remaining old buffers, the accumulated
`newBuffers`, `textures`, and the allocator log. -/
inductive LoopResult where
  | aborted (oldBufs : List Buffer) (allocCalls : List Nat)
  | finished (oldBufs newBufs : List Buffer)
      (textures : List TimedTextureClient) (allocCalls : List Nat)
deriving DecidableEq

/-- The old-buffer component of a loop outcome (the value `mBuffers` holds
when the loop aborts, or the leftover buffers scheduled for removal when it
finishes). -/
def LoopResult.oldBufs : LoopResult → List Buffer
  | .aborted ob _ => ob
  | .finished ob _ _ _ => ob

/-- The `for (auto& img : images)` loop of `ImageClientSingle::UpdateImage`.
Per image: look up the image's own texture or a matching `mBuffers` entry
(removing every matching entry), otherwise allocate; `return false` when no
texture was obtained or `AddTextureClient` fails; `continue` (skip) when the
texture's allocator channel is closed; otherwise append the timed texture
and the new buffer record. -/
def updateLoop (env : Env) : List OwningImage → List Buffer → List Buffer →
    List TimedTextureClient → List Nat → LoopResult
  | [], oldBufs, newBufs, textures, allocCalls =>
      .finished oldBufs newBufs textures allocCalls
  | img :: rest, oldBufs, newBufs, textures, allocCalls =>
      let oldBufs' := oldBufs.filter fun b => b.mImageSerial != img.serial
      match recycleTexture img oldBufs with
      | some t =>
          if !env.ipcOpen t then
            updateLoop env rest oldBufs' newBufs textures allocCalls
          else if !env.addTexture t then
            .aborted oldBufs' allocCalls
          else
            updateLoop env rest oldBufs'
              (newBufs ++ [{ mImageSerial := img.serial, mTextureClient := t }])
              (textures ++ [mkTimed img t]) allocCalls
      | none =>
          match env.createTexture img with
          | none => .aborted oldBufs' (allocCalls ++ [img.serial])
          | some t =>
              if !env.ipcOpen t then
                updateLoop env rest oldBufs' newBufs textures
                  (allocCalls ++ [img.serial])
              else if !env.addTexture t then
                .aborted oldBufs' (allocCalls ++ [img.serial])
              else
                updateLoop env rest oldBufs'
                  (newBufs ++
                    [{ mImageSerial := img.serial, mTextureClient := t }])
                  (textures ++ [mkTimed img t]) (allocCalls ++ [img.serial])

/-- Body of `ImageClientSingle::UpdateImage`.  Fast path on an unchanged generation
counter; then the generation is recorded; invalid images are filtered out;
an empty filtered snapshot removes every buffer and succeeds; otherwise the
per-image loop runs, and on completion `UseTextures` is issued followed by
one `RemoveTexture` per leftover old buffer, and `mBuffers` is swapped. -/
def updateImage (env : Env) (st : ClientState) (c : ImageContainer) :
    UpdateResult :=
  if st.mLastUpdateGenerationCounter == c.generation then
    { ok := true, state := st, events := [], allocCalls := [] }
  else
    let st1 : ClientState :=
      { st with mLastUpdateGenerationCounter := c.generation }
    let images := c.images.filter fun i => i.valid
    if images.isEmpty then
      { ok := true, state := { st1 with mBuffers := [] },
        events := st1.mBuffers.map fun b => .removeTexture b.mTextureClient,
        allocCalls := [] }
    else
      match updateLoop env images st1.mBuffers [] [] [] with
      | .aborted oldBufs allocCalls =>
          { ok := false, state := { st1 with mBuffers := oldBufs },
            events := [], allocCalls := allocCalls }
      | .finished oldBufs newBufs textures allocCalls =>
          { ok := true, state := { st1 with mBuffers := newBufs },
            events := .useTextures textures ::
              oldBufs.map fun b => .removeTexture b.mTextureClient,
            allocCalls := allocCalls }

/-- Detach handler `ImageClientSingle::OnDetach` clears `mBuffers`; it issues no forwarder
instruction (second component: the — empty — event list). -/
def onDetach (st : ClientState) : ClientState × List FwdEvent :=
  ({ st with mBuffers := [] }, [])

/-- State of `ImageClientBridge`: whether `GetForwarder()` and `mLayer` are
non-null, and `mAsyncContainerHandle` (0 is the null handle, as
`CompositableHandle`'s boolean test is value-is-nonzero). -/
structure BridgeState where
  hasForwarder : Bool
  hasLayer : Bool
  mAsyncContainerHandle : Nat
deriving DecidableEq

/-- Result of one `ImageClientBridge::UpdateImage` call. -/
structure BridgeResult where
  ok : Bool
  state : BridgeState
  events : List FwdEvent
deriving DecidableEq

/-- Body of `ImageClientBridge::UpdateImage`: fail without forwarder or layer;
no-op success on an unchanged handle; record the new handle; success
without action on a null handle; otherwise issue
`AttachAsyncCompositable`. -/
def bridgeUpdateImage (st : BridgeState) (handle : Nat) : BridgeResult :=
  if !st.hasForwarder || !st.hasLayer then
    { ok := false, state := st, events := [] }
  else if st.mAsyncContainerHandle == handle then
    { ok := true, state := st, events := [] }
  else
    let st1 : BridgeState := { st with mAsyncContainerHandle := handle }
    if handle == 0 then
      { ok := true, state := st1, events := [] }
    else
      { ok := true, state := st1, events := [.attachAsyncCompositable handle] }

/-- A sequence of `ImageClientBridge::UpdateImage` calls, one per handle in
the list; returns the per-call results (boolean and events) and the final
state. -/
def bridgeCalls (st : BridgeState) :
    List Nat → List (Bool × List FwdEvent) × BridgeState
  | [] => ([], st)
  | h :: hs =>
      let r := bridgeUpdateImage st h
      let rec' := bridgeCalls r.state hs
      ((r.ok, r.events) :: rec'.1, rec'.2)

/-! ### General lemmas about `updateImage` -/

/-- Fast path: an unchanged generation counter returns success with no
state change, no forwarder event and no allocator call. -/
theorem updateImage_fast (env : Env) (st : ClientState) (c : ImageContainer)
    (h : st.mLastUpdateGenerationCounter = c.generation) :
    updateImage env st c =
      { ok := true, state := st, events := [], allocCalls := [] } := by
  simp [updateImage, h]

/-- After any `updateImage` call, the recorded generation counter equals the
container's generation: the code records it right after the fast-path check
(and on the fast path the two were already equal). -/
theorem updateImage_gen (env : Env) (st : ClientState) (c : ImageContainer) :
    (updateImage env st c).state.mLastUpdateGenerationCounter =
      c.generation := by
  unfold updateImage
  split
  · next h => simpa using h
  · dsimp only
    split
    · rfl
    · split <;> rfl

/-- The old-buffer list carried by the loop outcome is a sublist of the
input one: the loop only ever filters entries out of it. -/
theorem updateLoop_oldBufs_sublist (env : Env) :
    ∀ (imgs : List OwningImage) (ob nb : List Buffer)
      (tx : List TimedTextureClient) (al : List Nat),
      List.Sublist (updateLoop env imgs ob nb tx al).oldBufs ob := by
  intro imgs
  induction imgs with
  | nil => intro ob nb tx al; exact List.Sublist.refl ob
  | cons img rest ih =>
      intro ob nb tx al
      have hf : List.Sublist (ob.filter fun b => b.mImageSerial != img.serial) ob :=
        List.filter_sublist ob
      simp only [updateLoop]
      split
      · split
        · exact (ih _ _ _ _).trans hf
        · split
          · exact hf
          · exact (ih _ _ _ _).trans hf
      · split
        · exact hf
        · split
          · exact (ih _ _ _ _).trans hf
          · split
            · exact hf
            · exact (ih _ _ _ _).trans hf

/-- C3: if `UpdateImage` is called with the frame source's generation equal
to the publisher's last-seen generation, the call returns success
immediately with no allocator call, no forwarder event, and no change to
the working set; and a second `UpdateImage` call with an unchanged
generation (after an arbitrary first call, on an arbitrary state) performs
zero allocator/forwarder calls. -/
theorem updateImage_noop_fast_path (env env2 : Env) (st st0 : ClientState)
    (c : ImageContainer)
    (h : st.mLastUpdateGenerationCounter = c.generation) :
    updateImage env st c =
      { ok := true, state := st, events := [], allocCalls := [] } ∧
    updateImage env2 (updateImage env st0 c).state c =
      { ok := true, state := (updateImage env st0 c).state, events := [],
        allocCalls := [] } :=
  ⟨updateImage_fast env st c h,
   updateImage_fast env2 _ c (updateImage_gen env st0 c)⟩

theorem updateImage_noop_fast_path_witness :
    updateImage
      { createTexture := fun _ => some 99, ipcOpen := fun _ => true,
        addTexture := fun _ => true }
      { mBuffers := [], mLastUpdateGenerationCounter := 5 }
      { images := [⟨1, true, none, 0, 0, 0, 0⟩], generation := 5 } =
      { ok := true,
        state := { mBuffers := [], mLastUpdateGenerationCounter := 5 },
        events := [], allocCalls := [] } ∧
    updateImage
      { createTexture := fun _ => some 99, ipcOpen := fun _ => true,
        addTexture := fun _ => true }
      (updateImage
        { createTexture := fun _ => some 99, ipcOpen := fun _ => true,
          addTexture := fun _ => true }
        { mBuffers := [⟨1, 10⟩], mLastUpdateGenerationCounter := 0 }
        { images := [⟨1, true, none, 0, 0, 0, 0⟩], generation := 5 }).state
      { images := [⟨1, true, none, 0, 0, 0, 0⟩], generation := 5 } =
      { ok := true,
        state := (updateImage
          { createTexture := fun _ => some 99, ipcOpen := fun _ => true,
            addTexture := fun _ => true }
          { mBuffers := [⟨1, 10⟩], mLastUpdateGenerationCounter := 0 }
          { images := [⟨1, true, none, 0, 0, 0, 0⟩], generation := 5 }).state,
        events := [], allocCalls := [] } :=
  updateImage_noop_fast_path _ _
    { mBuffers := [], mLastUpdateGenerationCounter := 5 }
    { mBuffers := [⟨1, 10⟩], mLastUpdateGenerationCounter := 0 }
    { images := [⟨1, true, none, 0, 0, 0, 0⟩], generation := 5 } rfl

/-- C6: when the generation changed and the snapshot filtered of invalid
images is empty, `UpdateImage` issues one `RemoveTexture` per current
binding, clears the working set, and returns success. -/
theorem updateImage_empty_snapshot_success (env : Env) (st : ClientState)
    (c : ImageContainer)
    (h1 : st.mLastUpdateGenerationCounter ≠ c.generation)
    (h2 : c.images.filter (fun i => i.valid) = []) :
    updateImage env st c =
      { ok := true,
        state := { mBuffers := [],
                   mLastUpdateGenerationCounter := c.generation },
        events := st.mBuffers.map fun b =>
          FwdEvent.removeTexture b.mTextureClient,
        allocCalls := [] } := by
  simp [updateImage, h1, h2]

theorem updateImage_empty_snapshot_success_witness :
    updateImage
      { createTexture := fun _ => some 99, ipcOpen := fun _ => true,
        addTexture := fun _ => true }
      { mBuffers := [⟨1, 10⟩, ⟨2, 20⟩], mLastUpdateGenerationCounter := 5 }
      { images := [⟨3, false, none, 0, 0, 0, 0⟩], generation := 6 } =
      { ok := true,
        state := { mBuffers := [], mLastUpdateGenerationCounter := 6 },
        events := [FwdEvent.removeTexture 10, FwdEvent.removeTexture 20],
        allocCalls := [] } := by
  have := updateImage_empty_snapshot_success
    { createTexture := fun _ => some 99, ipcOpen := fun _ => true,
      addTexture := fun _ => true }
    { mBuffers := [⟨1, 10⟩, ⟨2, 20⟩], mLastUpdateGenerationCounter := 5 }
    { images := [⟨3, false, none, 0, 0, 0, 0⟩], generation := 6 }
    (by decide) (by decide)
  simpa using this

/-- C10: a freshly constructed client has `mLastUpdateGenerationCounter = 0`,
so the very first `UpdateImage` call against a container whose generation is
0 takes the no-op fast path: success, no event, no allocator call, no
binding — even when the snapshot is non-empty. -/
theorem first_updateImage_gen_zero_noop (env : Env) (c : ImageContainer)
    (h : c.generation = 0) :
    ClientState.init.mLastUpdateGenerationCounter = 0 ∧
    updateImage env ClientState.init c =
      { ok := true, state := ClientState.init, events := [],
        allocCalls := [] } :=
  ⟨rfl, updateImage_fast env ClientState.init c (by simp [ClientState.init, h])⟩

theorem first_updateImage_gen_zero_noop_witness :
    ClientState.init.mLastUpdateGenerationCounter = 0 ∧
    updateImage
      { createTexture := fun _ => some 99, ipcOpen := fun _ => true,
        addTexture := fun _ => true }
      ClientState.init
      { images := [⟨1, true, none, 1, 2, 3, 4⟩, ⟨2, true, some 7, 0, 0, 0, 0⟩],
        generation := 0 } =
      { ok := true, state := ClientState.init, events := [],
        allocCalls := [] } :=
  first_updateImage_gen_zero_noop _
    { images := [⟨1, true, none, 1, 2, 3, 4⟩, ⟨2, true, some 7, 0, 0, 0, 0⟩],
      generation := 0 } rfl

/-- C2 is false on the code: here is an `UpdateImage` call that aborts with
failure (allocation fails) yet leaves the recorded last-seen generation
*changed* (from 0 to 1, the source generation), so the retry with the same
source generation IS short-circuited by the no-op fast path (it succeeds
with zero allocator calls even though the allocator still always fails). -/
theorem updateImage_generation_recorded_early_cex :
    (updateImage
      { createTexture := fun _ => none, ipcOpen := fun _ => true,
        addTexture := fun _ => true }
      { mBuffers := [], mLastUpdateGenerationCounter := 0 }
      { images := [⟨1, true, none, 0, 0, 0, 0⟩], generation := 1 }).ok
      = false ∧
    (updateImage
      { createTexture := fun _ => none, ipcOpen := fun _ => true,
        addTexture := fun _ => true }
      { mBuffers := [], mLastUpdateGenerationCounter := 0 }
      { images := [⟨1, true, none, 0, 0, 0, 0⟩],
        generation := 1 }).state.mLastUpdateGenerationCounter ≠ 0 ∧
    updateImage
      { createTexture := fun _ => none, ipcOpen := fun _ => true,
        addTexture := fun _ => true }
      (updateImage
        { createTexture := fun _ => none, ipcOpen := fun _ => true,
          addTexture := fun _ => true }
        { mBuffers := [], mLastUpdateGenerationCounter := 0 }
        { images := [⟨1, true, none, 0, 0, 0, 0⟩], generation := 1 }).state
      { images := [⟨1, true, none, 0, 0, 0, 0⟩], generation := 1 } =
      { ok := true,
        state := { mBuffers := [], mLastUpdateGenerationCounter := 1 },
        events := [], allocCalls := [] } := by
  decide

/-- C2 amended: the last-seen generation is recorded immediately after the
fast-path check, *before* any allocation or forwarding, so after every call
— aborted ones included — it equals the source generation, and a retry with
the same source generation is short-circuited by the no-op fast path. -/
theorem updateImage_generation_recorded_before_abort (env env2 : Env)
    (st : ClientState) (c : ImageContainer) :
    (updateImage env st c).state.mLastUpdateGenerationCounter =
      c.generation ∧
    updateImage env2 (updateImage env st c).state c =
      { ok := true, state := (updateImage env st c).state, events := [],
        allocCalls := [] } :=
  ⟨updateImage_gen env st c,
   updateImage_fast env2 _ c (updateImage_gen env st c)⟩

/-- C1 is false on the code: here is an `UpdateImage` call that returns
failure yet whose working set after the call differs from the one before
(the binding matching the processed frame was removed from `mBuffers`
before the abort and the swap never restores it). -/
theorem updateImage_abort_not_unchanged_cex :
    (updateImage
      { createTexture := fun _ => none, ipcOpen := fun _ => true,
        addTexture := fun _ => false }
      { mBuffers := [⟨1, 10⟩], mLastUpdateGenerationCounter := 0 }
      { images := [⟨1, true, none, 0, 0, 0, 0⟩], generation := 1 }).ok
      = false ∧
    (updateImage
      { createTexture := fun _ => none, ipcOpen := fun _ => true,
        addTexture := fun _ => false }
      { mBuffers := [⟨1, 10⟩], mLastUpdateGenerationCounter := 0 }
      { images := [⟨1, true, none, 0, 0, 0, 0⟩],
        generation := 1 }).state.mBuffers ≠ [⟨1, 10⟩] := by
  decide

/-- C1 amended: on an `UpdateImage` call that returns failure, no binding is
added or replaced and the new set is never swapped in, but the working set
may have shrunk: the post-call working set is a sublist of the pre-call one
(bindings whose frame-identity matched frames processed up to the failure
point have been removed). -/
theorem updateImage_abort_workingSet_sublist (env : Env) (st : ClientState)
    (c : ImageContainer) (h : (updateImage env st c).ok = false) :
    List.Sublist (updateImage env st c).state.mBuffers st.mBuffers := by
  revert h
  unfold updateImage
  split
  · intro h; simp at h
  · dsimp only
    split
    · intro h; simp at h
    · split
      · next ob' al' heq =>
          intro _
          have hsub := updateLoop_oldBufs_sublist env
            (c.images.filter fun i => i.valid) st.mBuffers [] [] []
          rw [heq] at hsub
          simpa [LoopResult.oldBufs] using hsub
      · intro h; simp at h

theorem updateImage_abort_workingSet_sublist_witness :
    List.Sublist ((updateImage
      { createTexture := fun _ => none, ipcOpen := fun _ => true,
        addTexture := fun _ => false }
      { mBuffers := [⟨1, 10⟩], mLastUpdateGenerationCounter := 0 }
      { images := [⟨1, true, none, 0, 0, 0, 0⟩],
        generation := 1 }).state.mBuffers) [⟨1, 10⟩] :=
  updateImage_abort_workingSet_sublist _ _ _ (by decide)

/-- C8 is false on the code in its "Detached state" half: after `OnDetach`,
a subsequent `UpdateImage` call is *not* rejected — here one returns
success. -/
theorem onDetach_not_rejecting_cex :
    (updateImage
      { createTexture := fun _ => none, ipcOpen := fun _ => true,
        addTexture := fun _ => true }
      (onDetach { mBuffers := [⟨1, 10⟩],
                  mLastUpdateGenerationCounter := 5 }).1
      { images := [⟨1, true, none, 0, 0, 0, 0⟩], generation := 5 }).ok
      = true := by
  decide

/-- C8 amended: `OnDetach` empties the working set and issues no forwarder
instruction (in particular no remove-texture instruction for the bindings
that existed at detach time), but there is no Detached state: subsequent
`UpdateImage` calls are processed normally — e.g. a call with an unchanged
generation returns success. -/
theorem onDetach_clears_without_remove (env : Env) (st : ClientState)
    (c : ImageContainer)
    (h : st.mLastUpdateGenerationCounter = c.generation) :
    (onDetach st).1 = { st with mBuffers := [] } ∧
    (onDetach st).2 = [] ∧
    (updateImage env (onDetach st).1 c).ok = true := by
  refine ⟨rfl, rfl, ?_⟩
  rw [updateImage_fast env _ c (by simpa [onDetach] using h)]

theorem onDetach_clears_without_remove_witness :
    (onDetach { mBuffers := [⟨1, 10⟩], mLastUpdateGenerationCounter := 5 }).1
      = { mBuffers := [], mLastUpdateGenerationCounter := 5 } ∧
    (onDetach { mBuffers := [⟨1, 10⟩],
                mLastUpdateGenerationCounter := 5 }).2 = [] ∧
    (updateImage
      { createTexture := fun _ => some 99, ipcOpen := fun _ => true,
        addTexture := fun _ => true }
      (onDetach { mBuffers := [⟨1, 10⟩],
                  mLastUpdateGenerationCounter := 5 }).1
      { images := [], generation := 5 }).ok = true :=
  onDetach_clears_without_remove _
    { mBuffers := [⟨1, 10⟩], mLastUpdateGenerationCounter := 5 }
    { images := [], generation := 5 } rfl

/-- With forwarder and layer present and the handle already recorded, every
further bridge call with that handle is a no-op success with no event. -/
theorem bridgeCalls_steady (h : Nat) :
    ∀ (n : Nat) (st : BridgeState), st.hasForwarder = true →
      st.hasLayer = true → st.mAsyncContainerHandle = h →
      bridgeCalls st (List.replicate n h) =
        (List.replicate n (true, []), st) := by
  intro n
  induction n with
  | zero => intro st _ _ _; rfl
  | succ m ih =>
      intro st hf hl hh
      have h1 : bridgeUpdateImage st h =
          { ok := true, state := st, events := [] } := by
        simp [bridgeUpdateImage, hf, hl, hh]
      simp [List.replicate_succ, bridgeCalls, h1, ih st hf hl hh]

theorem flatten_replicate_nil (n : Nat) :
    (List.replicate n ([] : List FwdEvent)).flatten = [] := by
  induction n with
  | zero => rfl
  | succ m ih => simp [List.replicate_succ, ih]

/-- C9: for the bridge variant (forwarder and layer present), across any
non-empty sequence of `UpdateImage` calls that all observe the same
non-null async-container handle (different from the recorded one at the
start), every call returns success and `AttachAsyncCompositable` is issued
exactly once, by the first call. -/
theorem bridge_attach_exactly_once (st : BridgeState) (h n : Nat)
    (hf : st.hasForwarder = true) (hl : st.hasLayer = true)
    (hnz : h ≠ 0) (hne : st.mAsyncContainerHandle ≠ h) :
    ((bridgeCalls st (List.replicate (n + 1) h)).1.map Prod.fst =
      List.replicate (n + 1) true) ∧
    ((bridgeCalls st (List.replicate (n + 1) h)).1.map Prod.snd).flatten =
      [FwdEvent.attachAsyncCompositable h] := by
  have h1 : bridgeUpdateImage st h =
      { ok := true, state := { st with mAsyncContainerHandle := h },
        events := [FwdEvent.attachAsyncCompositable h] } := by
    simp [bridgeUpdateImage, hf, hl, hne, hnz]
  have h2 := bridgeCalls_steady h n { st with mAsyncContainerHandle := h }
    hf hl rfl
  constructor
  · simp [List.replicate_succ, bridgeCalls, h1, h2, List.map_replicate]
  · simp [List.replicate_succ, bridgeCalls, h1, h2, List.map_replicate,
      flatten_replicate_nil]

theorem bridge_attach_exactly_once_witness :
    ((bridgeCalls ⟨true, true, 0⟩ (List.replicate 3 5)).1.map Prod.fst =
      List.replicate 3 true) ∧
    ((bridgeCalls ⟨true, true, 0⟩ (List.replicate 3 5)).1.map Prod.snd).flatten =
      [FwdEvent.attachAsyncCompositable 5] :=
  bridge_attach_exactly_once ⟨true, true, 0⟩ 5 2 rfl rfl
    (by decide) (by decide)

/-- C4: in a successful `UpdateImage` cycle whose filtered snapshot is
non-empty (a transition to a new non-empty frame set), the forwarder trace
of the call is exactly one batched `UseTextures` instruction followed by
the `RemoveTexture` instructions for the dropped bindings: the use batch is
issued before any remove. -/
theorem updateImage_use_before_remove (env : Env) (st : ClientState)
    (c : ImageContainer)
    (h1 : st.mLastUpdateGenerationCounter ≠ c.generation)
    (h2 : c.images.filter (fun i => i.valid) ≠ [])
    (h3 : (updateImage env st c).ok = true) :
    ∃ (ts : List TimedTextureClient) (bufs : List Buffer),
      (updateImage env st c).events =
      FwdEvent.useTextures ts ::
        bufs.map fun b => FwdEvent.removeTexture b.mTextureClient := by
  have hfast : (st.mLastUpdateGenerationCounter == c.generation) = false := by
    simpa using h1
  have hemp : (c.images.filter fun i => i.valid).isEmpty = false := by
    simpa using h2
  rcases hloop : updateLoop env (c.images.filter fun i => i.valid)
      st.mBuffers [] [] [] with ⟨ob', al'⟩ | ⟨ob', nb', tx', al'⟩
  · have hok : (updateImage env st c).ok = false := by
      simp [updateImage, hfast, hemp, hloop]
    rw [hok] at h3
    cases h3
  · refine ⟨tx', ob', ?_⟩
    simp [updateImage, hfast, hemp, hloop]

theorem updateImage_use_before_remove_witness :
    ∃ (ts : List TimedTextureClient) (bufs : List Buffer),
      (updateImage
        { createTexture := fun i => some (10 * i.serial),
          ipcOpen := fun _ => true, addTexture := fun _ => true }
        { mBuffers := [⟨1, 10⟩, ⟨2, 20⟩], mLastUpdateGenerationCounter := 5 }
        { images := [⟨2, true, none, 0, 0, 0, 0⟩, ⟨3, true, none, 0, 0, 0, 0⟩],
          generation := 6 }).events =
      FwdEvent.useTextures ts ::
        bufs.map fun b => FwdEvent.removeTexture b.mTextureClient :=
  updateImage_use_before_remove _ _ _ (by decide) (by decide) (by decide)

/-- C7: a frame whose obtained texture's remote channel is closed is
skipped silently: the loop continues with the remaining frames, no new
binding and no timed texture is appended for it (only its old matching
bindings are dropped, and — when it was allocated — the allocator-call log
records the allocation), and the condition does not abort the loop. -/
theorem updateLoop_closed_channel_skips_frame (env : Env) (img : OwningImage)
    (rest : List OwningImage) (ob nb : List Buffer)
    (tx : List TimedTextureClient) (al : List Nat) (t : Nat)
    (hget : recycleTexture img ob = some t ∨
      (recycleTexture img ob = none ∧ env.createTexture img = some t))
    (hclosed : env.ipcOpen t = false) :
    updateLoop env (img :: rest) ob nb tx al =
      updateLoop env rest (ob.filter fun b => b.mImageSerial != img.serial)
        nb tx
        (if (recycleTexture img ob).isSome then al
         else al ++ [img.serial]) := by
  rcases hget with hr | ⟨hr, hc⟩
  · simp [updateLoop, hr, hclosed]
  · simp [updateLoop, hr, hc, hclosed]

theorem updateLoop_closed_channel_skips_frame_witness :
    updateLoop
      { createTexture := fun _ => some 99, ipcOpen := fun u => u != 7,
        addTexture := fun _ => true }
      [⟨1, true, some 7, 0, 0, 0, 0⟩] [⟨1, 10⟩] [] [] [] =
      LoopResult.finished [] [] [] [] := by
  rw [updateLoop_closed_channel_skips_frame
    { createTexture := fun _ => some 99, ipcOpen := fun u => u != 7,
      addTexture := fun _ => true }
    ⟨1, true, some 7, 0, 0, 0, 0⟩ [] [⟨1, 10⟩] [] [] [] 7
    (Or.inl rfl) rfl]
  decide

/-- In a buffer list with pairwise-distinct serials, filtering on the
serial of a member yields exactly that member. -/
theorem filter_serial_singleton (s : Nat) :
    ∀ (l : List Buffer) (b : Buffer),
      (l.map fun x => x.mImageSerial).Nodup → b ∈ l → b.mImageSerial = s →
      l.filter (fun x => x.mImageSerial == s) = [b] := by
  intro l
  induction l with
  | nil => intro b _ hb _; cases hb
  | cons a tl ih =>
      intro b hnd hb hbs
      rw [List.map_cons, List.nodup_cons] at hnd
      rcases List.mem_cons.mp hb with rfl | hb'
      · have hcond : (b.mImageSerial == s) = true := by simpa using hbs
        have htl : tl.filter (fun x => x.mImageSerial == s) = [] := by
          rw [List.filter_eq_nil_iff]
          intro x hx hpx
          exact hnd.1 (List.mem_map.mpr ⟨x, hx, by
            have hxs : x.mImageSerial = s := by simpa using hpx
            rw [hxs, hbs]⟩)
        rw [List.filter_cons, if_pos hcond, htl]
      · have hane : (a.mImageSerial == s) = false := by
          rw [beq_eq_false_iff_ne]
          intro h
          exact hnd.1 (List.mem_map.mpr ⟨b, hb', by rw [hbs, h]⟩)
        rw [List.filter_cons, if_neg (by simp [hane])]
        exact ih b hnd.2 hb' hbs

/-- Filtering a buffer list on a serial that occurs nowhere in it gives the
empty list. -/
theorem filter_serial_nil (s : Nat) (l : List Buffer)
    (hs : s ∉ l.map fun x => x.mImageSerial) :
    l.filter (fun x => x.mImageSerial == s) = [] := by
  rw [List.filter_eq_nil_iff]
  intro x hx hpx
  exact hs (List.mem_map.mpr ⟨x, hx, by simpa using hpx⟩)

/-- A serial that never occurs in the remaining snapshot gains no binding
and no allocator-log entry during the rest of the loop. -/
theorem updateLoop_fresh (env : Env) (s : Nat) :
    ∀ (imgs : List OwningImage) (ob nb : List Buffer)
      (tx : List TimedTextureClient) (al : List Nat),
      s ∉ imgs.map (fun i => i.serial) →
      ∀ ob' nb' tx' al',
        updateLoop env imgs ob nb tx al = .finished ob' nb' tx' al' →
        nb'.filter (fun x => x.mImageSerial == s) =
          nb.filter (fun x => x.mImageSerial == s) ∧
        (s ∈ al' → s ∈ al) := by
  intro imgs
  induction imgs with
  | nil =>
      intro ob nb tx al hs ob' nb' tx' al' heq
      simp only [updateLoop] at heq
      cases heq
      exact ⟨rfl, id⟩
  | cons img rest ih =>
      intro ob nb tx al hs ob' nb' tx' al' heq
      rw [List.map_cons] at hs
      have hs1 : img.serial ≠ s := fun h => hs (by
        rw [← h]; exact List.mem_cons_self _ _)
      have hs2 : s ∉ rest.map (fun i => i.serial) :=
        fun h => hs (List.mem_cons_of_mem _ h)
      have halr : ∀ al₀ : List Nat, s ∈ al₀ ++ [img.serial] → s ∈ al₀ := by
        intro al₀ h
        rcases List.mem_append.mp h with h | h
        · exact h
        · simp at h; exact absurd h.symm hs1
      simp only [updateLoop] at heq
      split at heq
      · split at heq
        · exact ih _ _ _ _ hs2 _ _ _ _ heq
        · split at heq
          · cases heq
          · obtain ⟨h1, h2⟩ := ih _ _ _ _ hs2 _ _ _ _ heq
            refine ⟨?_, h2⟩
            rw [h1, List.filter_append]
            simp [hs1]
      · split at heq
        · cases heq
        · split at heq
          · obtain ⟨h1, h2⟩ := ih _ _ _ _ hs2 _ _ _ _ heq
            exact ⟨h1, fun hm => halr _ (h2 hm)⟩
          · split at heq
            · cases heq
            · obtain ⟨h1, h2⟩ := ih _ _ _ _ hs2 _ _ _ _ heq
              refine ⟨?_, fun hm => halr _ (h2 hm)⟩
              rw [h1, List.filter_append]
              simp [hs1]

/-- One loop step when a texture is recycled, its channel is open and
`AddTextureClient` succeeds: the new binding and timed texture are
appended and the loop continues. -/
theorem updateLoop_reuse_step (env : Env) (img : OwningImage)
    (rest : List OwningImage) (ob nb : List Buffer)
    (tx : List TimedTextureClient) (al : List Nat) (t : Nat)
    (hrec : recycleTexture img ob = some t)
    (hipc : env.ipcOpen t = true) (hadd : env.addTexture t = true) :
    updateLoop env (img :: rest) ob nb tx al =
      updateLoop env rest (ob.filter fun x => x.mImageSerial != img.serial)
        (nb ++ [{ mImageSerial := img.serial, mTextureClient := t }])
        (tx ++ [mkTimed img t]) al := by
  simp [updateLoop, hrec, hipc, hadd]

/-- One loop step when a texture is recycled, its channel is open but
`AddTextureClient` fails: the loop aborts. -/
theorem updateLoop_reuse_step_abort (env : Env) (img : OwningImage)
    (rest : List OwningImage) (ob nb : List Buffer)
    (tx : List TimedTextureClient) (al : List Nat) (t : Nat)
    (hrec : recycleTexture img ob = some t)
    (hipc : env.ipcOpen t = true) (hadd : env.addTexture t = false) :
    updateLoop env (img :: rest) ob nb tx al =
      .aborted (ob.filter fun x => x.mImageSerial != img.serial) al := by
  simp [updateLoop, hrec, hipc, hadd]

/-- Core of the recycling property: when a frame's image owns no texture
and the working set holds a binding with the frame's serial (serials
pairwise distinct in the snapshot and in the working set, the binding's
channel open, no accumulated new binding with that serial yet), a completed
loop never called the allocator for that serial, and the accumulated new
working set binds the serial exactly once — to the old binding's texture. -/
theorem updateLoop_reuse (env : Env) :
    ∀ (imgs : List OwningImage) (ob nb : List Buffer)
      (tx : List TimedTextureClient) (al : List Nat)
      (img : OwningImage) (b : Buffer),
      img ∈ imgs → img.ownTexture = none →
      b ∈ ob → b.mImageSerial = img.serial →
      (imgs.map fun i => i.serial).Nodup →
      (ob.map fun x => x.mImageSerial).Nodup →
      img.serial ∉ nb.map (fun x => x.mImageSerial) →
      env.ipcOpen b.mTextureClient = true →
      ∀ ob' nb' tx' al',
        updateLoop env imgs ob nb tx al = .finished ob' nb' tx' al' →
        (img.serial ∈ al' → img.serial ∈ al) ∧
        nb'.filter (fun x => x.mImageSerial == img.serial) =
          [{ mImageSerial := img.serial,
             mTextureClient := b.mTextureClient }] := by
  intro imgs
  induction imgs with
  | nil => intro ob nb tx al img b hmem; cases hmem
  | cons img0 rest ih =>
      intro ob nb tx al img b hmem hown hb hbs hndI hndB hnb hipc
        ob' nb' tx' al' heq
      rw [List.map_cons, List.nodup_cons] at hndI
      rcases List.mem_cons.mp hmem with rfl | hmem'
      · -- the frame under consideration is the head of the snapshot
        have hrec : recycleTexture img ob = some b.mTextureClient := by
          simp only [recycleTexture, hown]
          rw [filter_serial_singleton img.serial ob b hndB hb hbs]
          rfl
        cases hadd : env.addTexture b.mTextureClient with
        | false =>
            rw [updateLoop_reuse_step_abort env img rest ob nb tx al
              b.mTextureClient hrec hipc hadd] at heq
            cases heq
        | true =>
            rw [updateLoop_reuse_step env img rest ob nb tx al
              b.mTextureClient hrec hipc hadd] at heq
            obtain ⟨h1, h2⟩ := updateLoop_fresh env img.serial rest _ _ _ _
              hndI.1 _ _ _ _ heq
            refine ⟨h2, ?_⟩
            rw [h1, List.filter_append, filter_serial_nil img.serial nb hnb]
            simp
      · -- the frame under consideration is further down; process the head
        have hne : img.serial ≠ img0.serial := by
          intro h
          exact hndI.1 (by rw [← h]; exact List.mem_map_of_mem _ hmem')
        have hb₁ : b ∈ ob.filter fun x => x.mImageSerial != img0.serial :=
          List.mem_filter.mpr ⟨hb, by
            rw [hbs]; exact bne_iff_ne.mpr hne⟩
        have hndB₁ : ((ob.filter fun x => x.mImageSerial != img0.serial).map
            fun x => x.mImageSerial).Nodup :=
          List.Nodup.sublist (List.Sublist.map _ (List.filter_sublist ob)) hndB
        have hnbapp : ∀ t : Nat, img.serial ∉
            ((nb ++ [(⟨img0.serial, t⟩ : Buffer)]).map fun x => x.mImageSerial) := by
          intro t hmm
          rw [List.map_append] at hmm
          rcases List.mem_append.mp hmm with h | h
          · exact hnb h
          · simp at h; exact hne h
        have halapp : img.serial ∈ al ++ [img0.serial] → img.serial ∈ al := by
          intro hmm
          rcases List.mem_append.mp hmm with h | h
          · exact h
          · simp at h; exact absurd h hne
        have key : ∀ (nb₁ : List Buffer) (tx₁ : List TimedTextureClient)
            (al₁ : List Nat),
            img.serial ∉ nb₁.map (fun x => x.mImageSerial) →
            (img.serial ∈ al₁ → img.serial ∈ al) →
            updateLoop env rest
              (ob.filter fun x => x.mImageSerial != img0.serial)
              nb₁ tx₁ al₁ = .finished ob' nb' tx' al' →
            (img.serial ∈ al' → img.serial ∈ al) ∧
            nb'.filter (fun x => x.mImageSerial == img.serial) =
              [{ mImageSerial := img.serial,
                 mTextureClient := b.mTextureClient }] := by
          intro nb₁ tx₁ al₁ hnb₁ hal₁ heq₁
          obtain ⟨h1, h2⟩ := ih _ nb₁ tx₁ al₁ img b hmem' hown hb₁ hbs
            hndI.2 hndB₁ hnb₁ hipc _ _ _ _ heq₁
          exact ⟨fun hm => hal₁ (h1 hm), h2⟩
        simp only [updateLoop] at heq
        split at heq
        · split at heq
          · exact key _ _ _ hnb id heq
          · split at heq
            · cases heq
            · exact key _ _ _ (hnbapp _) id heq
        · split at heq
          · cases heq
          · split at heq
            · exact key _ _ _ hnb halapp heq
            · split at heq
              · cases heq
              · exact key _ _ _ (hnbapp _) halapp heq

/-- C5: in a generation-changed `UpdateImage` call (snapshot and working-set
serials pairwise distinct, as the container's dedup and the one-binding-
per-serial invariant guarantee), a valid frame whose serial matches an
existing binding and whose image owns no forwarder-bound texture — with
that binding's channel open — is never passed to the allocator, and on a
successful call the new working set binds that serial exactly once, to the
matching binding's texture: reuse before reallocate, replaced rather than
duplicated. -/
theorem updateImage_recycles_matching_buffer (env : Env) (st : ClientState)
    (c : ImageContainer) (img : OwningImage) (b : Buffer)
    (hgen : st.mLastUpdateGenerationCounter ≠ c.generation)
    (hmem : img ∈ c.images.filter fun i => i.valid)
    (hown : img.ownTexture = none)
    (hb : b ∈ st.mBuffers) (hbs : b.mImageSerial = img.serial)
    (hndI : ((c.images.filter fun i => i.valid).map fun i => i.serial).Nodup)
    (hndB : (st.mBuffers.map fun x => x.mImageSerial).Nodup)
    (hipc : env.ipcOpen b.mTextureClient = true)
    (hok : (updateImage env st c).ok = true) :
    img.serial ∉ (updateImage env st c).allocCalls ∧
    (updateImage env st c).state.mBuffers.filter
      (fun x => x.mImageSerial == img.serial) =
      [{ mImageSerial := img.serial,
         mTextureClient := b.mTextureClient }] := by
  have hfast : (st.mLastUpdateGenerationCounter == c.generation) = false := by
    simpa using hgen
  have hemp : (c.images.filter fun i => i.valid).isEmpty = false := by
    cases h : c.images.filter fun i => i.valid with
    | nil => rw [h] at hmem; cases hmem
    | cons a l => rfl
  rcases hloop : updateLoop env (c.images.filter fun i => i.valid)
      st.mBuffers [] [] [] with ⟨ob', al'⟩ | ⟨ob', nb', tx', al'⟩
  · have hno : (updateImage env st c).ok = false := by
      simp [updateImage, hfast, hemp, hloop]
    rw [hno] at hok
    cases hok
  · obtain ⟨h1, h2⟩ := updateLoop_reuse env
      (c.images.filter fun i => i.valid) st.mBuffers [] [] [] img b
      hmem hown hb hbs hndI hndB (by simp) hipc ob' nb' tx' al' hloop
    have hres : (updateImage env st c).allocCalls = al' ∧
        (updateImage env st c).state.mBuffers = nb' := by
      simp [updateImage, hfast, hemp, hloop]
    rw [hres.1, hres.2]
    exact ⟨fun hm => absurd (h1 hm) (List.not_mem_nil _), h2⟩

theorem updateImage_recycles_matching_buffer_witness :
    (2 : Nat) ∉ (updateImage
      { createTexture := fun i => some (10 * i.serial),
        ipcOpen := fun _ => true, addTexture := fun _ => true }
      { mBuffers := [⟨1, 10⟩, ⟨2, 20⟩], mLastUpdateGenerationCounter := 5 }
      { images := [⟨2, true, none, 0, 0, 0, 0⟩, ⟨3, true, none, 0, 0, 0, 0⟩],
        generation := 6 }).allocCalls ∧
    (updateImage
      { createTexture := fun i => some (10 * i.serial),
        ipcOpen := fun _ => true, addTexture := fun _ => true }
      { mBuffers := [⟨1, 10⟩, ⟨2, 20⟩], mLastUpdateGenerationCounter := 5 }
      { images := [⟨2, true, none, 0, 0, 0, 0⟩, ⟨3, true, none, 0, 0, 0, 0⟩],
        generation := 6 }).state.mBuffers.filter
      (fun x => x.mImageSerial == 2) =
      [{ mImageSerial := 2, mTextureClient := 20 }] :=
  updateImage_recycles_matching_buffer _ _ _
    ⟨2, true, none, 0, 0, 0, 0⟩ ⟨2, 20⟩
    (by decide) (by decide) rfl (by decide) rfl (by decide) (by decide)
    rfl (by decide)
